/-
Verification of the KEBA Home Assistant integration (custom_components/keba),
focused on the repository-owned P40 REST client and charging-station wrapper:
`p40_api.py` (P40ApiClient), `p40_charging_station.py` (P40ChargingStation),
`__init__.py` (service dispatch) and `config_flow.py` (user step).

The Python code is shallowly embedded: JSON values are an inductive type
(Python `None` is `Json.null`), network I/O is a script of responses consumed
in order, and mutable attributes are explicit state records threaded through
the functions.  Python's `dict.get` raising `AttributeError` on non-dict
receivers is modelled faithfully via `Except` where a claim depends on it.
-/

import Mathlib

namespace Keba

/-! ## JSON values

Models the Python values produced by `aiohttp`'s `response.json()`.
`Json.null` doubles as Python `None`. Numbers are rationals (Python
ints/floats; all arithmetic appearing in the sources is exact on rationals).
-/

inductive Json where
  | null : Json
  | bool (b : Bool) : Json
  | num (q : ℚ) : Json
  | str (s : String) : Json
  | arr (elems : List Json) : Json
  | obj (fields : List (String × Json)) : Json

namespace Json

/-- Python truthiness (`if x:`) of a JSON/Python value. -/
def truthy : Json → Bool
  | .null => false
  | .bool b => b
  | .num q => decide (q ≠ 0)
  | .str s => decide (s ≠ "")
  | .arr l => !l.isEmpty
  | .obj l => !l.isEmpty

/-- Whether the value is a Python dict. -/
def isObj : Json → Bool
  | .obj _ => true
  | _ => false

/-- Whether the value is a Python list. -/
def isArr : Json → Bool
  | .arr _ => true
  | _ => false

/-- Python `v is None`. -/
def isNull : Json → Bool
  | .null => true
  | _ => false

/-- Field lookup in an object: `some v` when the key is present (first
occurrence), `none` when absent. Only meaningful on `obj`. -/
def lookup (j : Json) (k : String) : Option Json :=
  match j with
  | .obj fields => fields.lookup k
  | _ => none

/-- Python `d.get(k)` on a dict: the stored value if present, else `None`.
A stored JSON `null` is Python `None`, hence also `Json.null` here. -/
def getOpt (j : Json) (k : String) : Json :=
  (j.lookup k).getD .null

/-- Python `d.get(k, default)` on a dict: the stored value if the key is
present (even when it is `null`), else the default. -/
def getD (j : Json) (k : String) (d : Json) : Json :=
  (j.lookup k).getD d

/-- Python `k in d` on a dict. -/
def hasKey (j : Json) (k : String) : Bool :=
  (j.lookup k).isSome

/-- Numeric reading of a value, default 0 (the sources only divide/multiply
values that are numeric in the device API; see the modelling note above). -/
def asQ : Json → ℚ
  | .num q => q
  | _ => 0

/-- List reading of a value, default `[]`. -/
def asList : Json → List Json
  | .arr l => l
  | _ => []

/-- Python `v == s` for a string literal `s`: true only when `v` is that
string. -/
def eqStr : Json → String → Bool
  | .str t, s => t = s
  | _, _ => false

end Json

/-- Python exceptions that the embedded code can raise. -/
inductive PyExc where
  | attributeError : PyExc
  | notImplementedError : PyExc
  | serviceValidationError : PyExc
  deriving Repr, DecidableEq

/-- Python `d.get(k)` where `d` may not be a dict: raises `AttributeError`
on non-dict receivers (`p40_api.py` calls `.get` on unvalidated JSON). -/
def pyGetOpt (j : Json) (k : String) : Except PyExc Json :=
  match j with
  | .obj _ => .ok (j.getOpt k)
  | _ => .error .attributeError

/-- Python `d.get(k, default)` where `d` may not be a dict. -/
def pyGetD (j : Json) (k : String) (d : Json) : Except PyExc Json :=
  match j with
  | .obj _ => .ok (j.getD k d)
  | _ => .error .attributeError

/-- Python `int(x)` on a rational (float): truncation toward zero. -/
def pyInt (q : ℚ) : ℤ :=
  q.num.tdiv (q.den : ℤ)

/-! ## Network model

Each wire request consumes the head of a script of responses; an exhausted
script behaves like a network error (the claims quantify over scripts, so
this default only matters past the end of the modelled run).
`HttpResult.netErr` stands for `asyncio.TimeoutError` / `aiohttp.ClientError`,
both caught by every `except` clause in `p40_api.py`.
-/

inductive HttpResult where
  | resp (status : ℕ) (body : Json) : HttpResult
  | netErr : HttpResult

/-- Consume the next response of the script. -/
def takeResp : List HttpResult → HttpResult × List HttpResult
  | [] => (.netErr, [])
  | r :: rest => (r, rest)

/-! ## P40ApiClient state (`p40_api.py`, `__init__`)

The mutable attributes `_access_token`, `_refresh_token`, `_username`,
`_password`. Python `None` is `Json.null`; tokens are stored exactly as
read from response bodies (`data.get(...)`).
-/

structure ClientState where
  accessToken : Json
  refreshToken : Json
  username : Json
  password : Json

/-- Fresh client (`P40ApiClient.__init__`): no tokens, no credentials. -/
def ClientState.init : ClientState :=
  { accessToken := .null, refreshToken := .null
    username := .null, password := .null }

/-! ## P40ApiClient.login

Embeds `login(username, password)`.  Credentials are stored first; on HTTP
200 the tokens are taken from the body with `data.get` (raising
`AttributeError` when the 200 body is not a JSON object, as the Python
does); any other status returns `False`; timeout/client errors are caught
and return `False`.  Returns (result, state, remaining script).
-/

def login (st : ClientState) (username password : String)
    (script : List HttpResult) :
    Except PyExc (Bool × ClientState × List HttpResult) :=
  let st1 := { st with username := .str username, password := .str password }
  let (r, rest) := takeResp script
  match r with
  | .resp status body =>
      if status = 200 then
        match pyGetOpt body "accessToken", pyGetOpt body "refreshToken" with
        | .ok at_, .ok rt_ =>
            .ok (true, { st1 with accessToken := at_, refreshToken := rt_ }, rest)
        | .error e, _ => .error e
        | _, .error e => .error e
      else
        .ok (false, st1, rest)
  | .netErr => .ok (false, st1, rest)

/-! ## P40ApiClient._refresh_access_token

If no (truthy) refresh token is stored, falls back to a full `login` with the
stored credentials when both are truthy, else fails.  Otherwise posts to the
refresh endpoint: on 200 stores the new access token and, when truthy, the
new refresh token; on any other status or a network error it falls back to
`login` when credentials are available, else fails.
-/

def refreshAccessToken (st : ClientState) (script : List HttpResult) :
    Except PyExc (Bool × ClientState × List HttpResult) :=
  if ¬ st.refreshToken.truthy then
    if st.username.truthy ∧ st.password.truthy then
      match st.username, st.password with
      | .str u, .str p => login st u p script
      | _, _ => .ok (false, st, script)
    else
      .ok (false, st, script)
  else
    let (r, rest) := takeResp script
    match r with
    | .resp status body =>
        if status = 200 then
          match pyGetOpt body "accessToken", pyGetOpt body "refreshToken" with
          | .ok at_, .ok newRefresh =>
              let st1 := { st with accessToken := at_ }
              let st2 := if newRefresh.truthy
                then { st1 with refreshToken := newRefresh } else st1
              .ok (true, st2, rest)
          | .error e, _ => .error e
          | _, .error e => .error e
        else
          if st.username.truthy ∧ st.password.truthy then
            match st.username, st.password with
            | .str u, .str p => login st u p rest
            | _, _ => .ok (false, st, rest)
          else
            .ok (false, st, rest)
    | .netErr =>
        if st.username.truthy ∧ st.password.truthy then
          match st.username, st.password with
          | .str u, .str p => login st u p rest
          | _, _ => .ok (false, st, rest)
        else
          .ok (false, st, rest)

/-! ## P40ApiClient._request

Embeds the authenticated request with the `_retry_on_401` flag as fuel
(`True` is fuel 1, `False` is fuel 0; the recursive retry is made with the
flag cleared).  Besides the result (`some body` for 200/201, `none` for
failure) and the threaded state/script, the instrumentation counts the wire
requests fired for this path and the calls to `_refresh_access_token`.
-/

structure ReqOut where
  result : Option Json
  state : ClientState
  script : List HttpResult
  wireCount : ℕ
  refreshCount : ℕ

def requestAux : ℕ → ClientState → List HttpResult → Except PyExc ReqOut
  | fuel, st, script =>
    if ¬ st.accessToken.truthy then
      .ok ⟨none, st, script, 0, 0⟩
    else
      let (r, rest) := takeResp script
      match r with
      | .resp status body =>
          if status = 200 ∨ status = 201 then
            .ok ⟨some body, st, rest, 1, 0⟩
          else if status = 401 then
            match fuel with
            | fuel' + 1 =>
                match refreshAccessToken st rest with
                | .ok (true, st1, rest1) =>
                    match requestAux fuel' st1 rest1 with
                    | .ok out =>
                        .ok ⟨out.result, out.state, out.script,
                             out.wireCount + 1, out.refreshCount + 1⟩
                    | .error e => .error e
                | .ok (false, st1, rest1) =>
                    .ok ⟨none, st1, rest1, 1, 1⟩
                | .error e => .error e
            | 0 => .ok ⟨none, st, rest, 1, 0⟩
          else
            .ok ⟨none, st, rest, 1, 0⟩
      | .netErr => .ok ⟨none, st, rest, 1, 0⟩

/-- `_request` with `_retry_on_401` as a flag, its default being `True`. -/
def request (st : ClientState) (script : List HttpResult)
    (retryOn401 : Bool := true) : Except PyExc ReqOut :=
  requestAux (if retryOn401 then 1 else 0) st script

/-! ## Sessions (`p40_api.py`: `_parse_session`, `get_sessions`,
`get_current_session`)

Dataclass fields hold the raw JSON values Python would store; `Json.null`
is a stored Python `None` (`data.get(k)` with no default yields `None` both
for an absent key and for a JSON `null`).
-/

structure P40SessionInfo where
  id : Json
  wallbox_number : Json
  wallbox_serial_number : Json
  wallbox_alias : Json
  status : Json
  starting_meter_value : Json
  start_date : Json
  energy_consumed : Json
  energy_consumed_in_kwh : Json
  duration : Json
  token_id : Json
  ending_meter_value : Json
  end_date : Json
  termination_reason : Json
  transaction_token : Json

/-- Embeds `_parse_session`: every field is a `data.get`, raising
`AttributeError` when `data` is not a dict. -/
def parseSession (data : Json) : Except PyExc P40SessionInfo :=
  match data with
  | .obj _ =>
      .ok { id := data.getD "id" (.num 0)
            wallbox_number := data.getD "wallboxNumber" (.num 0)
            wallbox_serial_number := data.getD "wallboxSerialNumber" (.str "")
            wallbox_alias := data.getOpt "wallboxAlias"
            status := data.getD "status" (.str "")
            starting_meter_value := data.getD "startingMeterValue" (.num 0)
            start_date := data.getD "startDate" (.num 0)
            energy_consumed := data.getD "energyConsumed" (.num 0)
            energy_consumed_in_kwh := data.getOpt "energyConsumedInKwh"
            duration := data.getOpt "duration"
            token_id := data.getOpt "tokenId"
            ending_meter_value := data.getOpt "endingMeterValue"
            end_date := data.getOpt "endDate"
            termination_reason := data.getOpt "terminationReason"
            transaction_token := data.getOpt "transactionToken" }
  | _ => .error .attributeError

/-- Embeds the body of `get_sessions` after the `_request` call, whose
result is `data` (`none` for a failed request).  Mirrors:
`if not data: return []`; `sessions_list = data.get("sessions", []) if
isinstance(data, dict) else data`; `if not isinstance(sessions_list, list):
return []`; then one `_parse_session` per element. -/
def getSessions (data : Option Json) : Except PyExc (List P40SessionInfo) :=
  match data with
  | none => .ok []
  | some d =>
      if ¬ d.truthy then .ok []
      else
        let sessionsList := if d.isObj then d.getD "sessions" (.arr []) else d
        match sessionsList with
        | .arr elems => elems.mapM parseSession
        | _ => .ok []

/-- Embeds the selection in `get_current_session`: the first session of the
fetched list whose serial matches and whose status is `INITIATED`,
`PWM_CHARGING` or `BLOCKED`; `none` otherwise. -/
def getCurrentSession (sessions : List P40SessionInfo) (serial : String) :
    Option P40SessionInfo :=
  sessions.find? fun s =>
    s.wallbox_serial_number.eqStr serial &&
      (s.status.eqStr "INITIATED" || s.status.eqStr "PWM_CHARGING" ||
        s.status.eqStr "BLOCKED")

/-! ## Wallbox state (`p40_api.py`: `get_wallbox_state`) -/

structure P40MeterInfo where
  meter_value : Json
  total_active_power : Json
  total_power_factor : Json
  phases_supported : Json
  current_offered : Json
  temperature : Json
  lines : Json

structure P40WallboxState where
  number : Json
  serial_number : Json
  state : Json
  vehicle_plugged : Json
  authorization_enabled : Json
  session_active : Json
  meter : Option P40MeterInfo
  max_phases : Json
  max_current : Json
  phase_used : Json
  ip_address : Json
  model : Json
  firmware_version : Json
  error_code : Json
  alias_ : Json
  x2active : Json
  x11active : Json
  x12active : Json
  permanently_locked : Json

/-- Embeds the parsing part of `get_wallbox_state` applied to `data` (the
`get_wallbox` result): `meter = data.get("meter")` parsed when truthy, and
every other field a `data.get` with the source's default. -/
def parseWallboxState (data : Json) (serial : String) :
    Except PyExc P40WallboxState :=
  match data with
  | .obj _ =>
      let meterData := data.getOpt "meter"
      let meterParsed : Except PyExc (Option P40MeterInfo) :=
        if meterData.truthy then
          match meterData with
          | .obj _ =>
              .ok (some
                { meter_value := meterData.getD "meterValue" (.num 0)
                  total_active_power := meterData.getD "totalActivePower" (.num 0)
                  total_power_factor := meterData.getD "totalPowerFactor" (.num 0)
                  phases_supported := meterData.getD "phasesSupported" (.num 0)
                  current_offered := meterData.getD "currentOffered" (.num 0)
                  temperature := meterData.getD "temperature" (.num 0)
                  lines := meterData.getD "lines" (.arr []) })
          | _ => .error .attributeError
        else .ok none
      match meterParsed with
      | .error e => .error e
      | .ok meter =>
          .ok { number := data.getD "number" (.num 1)
                serial_number := data.getD "serialNumber" (.str serial)
                state := data.getD "state" (.str "UNKNOWN")
                vehicle_plugged := data.getD "vehiclePlugged" (.bool false)
                authorization_enabled := data.getD "authorizationEnabled" (.bool false)
                session_active := data.getD "sessionActive" (.bool false)
                meter := meter
                max_phases := data.getD "maxPhases" (.num 3)
                max_current := data.getD "maxCurrent" (.num 0)
                phase_used := data.getD "phaseUsed" (.str "")
                ip_address := data.getD "ipAddress" (.str "")
                model := data.getD "model" (.str "")
                firmware_version := data.getOpt "firmwareVersion"
                error_code := data.getOpt "errorCode"
                alias_ := data.getOpt "alias"
                x2active := data.getD "x2active" (.bool false)
                x11active := data.getD "x11active" (.bool false)
                x12active := data.getD "x12active" (.bool false)
                permanently_locked := data.getD "permanentlyLocked" (.bool false) }
  | _ => .error .attributeError

/-- Embeds `get_wallbox_state`: `None` when `get_wallbox` produced nothing
falsy, otherwise the parsed state. -/
def getWallboxState (data : Option Json) (serial : String) :
    Except PyExc (Option P40WallboxState) :=
  match data with
  | none => .ok none
  | some d =>
      if ¬ d.truthy then .ok none
      else (parseWallboxState d serial).map some

/-! ## State mapping (`p40_charging_station.py`: `_map_state`,
`_map_state_details`) -/

/-- The `state_mapping` dict of `_map_state`. -/
def state_mapping : List (String × ℤ) :=
  [("IDLE", 0), ("READY_FOR_CHARGING", 1), ("CHARGING", 3), ("SUSPENDED", 4),
   ("RECOVER_FROM_ERROR", 5), ("UNAVAILABLE", 254), ("OFFLINE", 254)]

/-- Embeds `_map_state`: `state_mapping.get(p40_state, 0)`. -/
def map_state (p40_state : String) : ℤ :=
  (state_mapping.lookup p40_state).getD 0

/-- The `state_details` dict of `_map_state_details`. -/
def state_details : List (String × String) :=
  [("IDLE", "ready"), ("READY_FOR_CHARGING", "ready"), ("CHARGING", "charging"),
   ("SUSPENDED", "suspended"), ("RECOVER_FROM_ERROR", "error"),
   ("UNAVAILABLE", "unavailable"), ("OFFLINE", "offline"),
   ("INSTALLER_MODE", "installer mode"),
   ("TOKEN_PROGRAMMING_MODE", "token programming"),
   ("UNRECOVERABLE_ERROR", "error"), ("DEGRADED", "degraded")]

/-- Embeds `_map_state_details`: `state_details.get(p40_state, "unknown")`. -/
def map_state_details (p40_state : String) : String :=
  (state_details.lookup p40_state).getD "unknown"

/-- `_map_state` applied to the raw JSON `state` field: a non-string key is
never in the dict, so it maps to the default 0. -/
def mapStateVal : Json → ℤ
  | .str s => map_state s
  | _ => 0

/-- `_map_state_details` applied to the raw JSON `state` field. -/
def mapStateDetailsVal : Json → String
  | .str s => map_state_details s
  | _ => "unknown"

/-! ## The entity state cache (`P40ChargingStation._state_cache`)

A Python dict written by `_update_state` and read by `get_value`.  A later
assignment shadows an earlier one, so the cache is an association list with
prepend-on-write and first-match lookup.  `CacheVal.isoUtc sec` stands for
`datetime.fromtimestamp(sec, tz=timezone.utc).isoformat()`.
-/

inductive CacheVal where
  | json (j : Json) : CacheVal
  | isoUtc (sec : ℤ) : CacheVal

abbrev Cache := List (String × CacheVal)

/-- Dict assignment `cache[k] = v`. -/
def cset (c : Cache) (k : String) (v : CacheVal) : Cache :=
  (k, v) :: c

/-- Dict lookup `cache.get(k)` (used by `get_value`). -/
def cget (c : Cache) (k : String) : Option CacheVal :=
  c.lookup k

/-- Numeric read `cache.get(k, 0)` as used for `Curr user` (the code only
stores numbers under that key). -/
def cgetNum (c : Cache) (k : String) : ℚ :=
  match c.lookup k with
  | some (.json j) => j.asQ
  | some (.isoUtc _) => 0
  | none => 0

/-- Python `//` floor division on integers. -/
def pyFloorDiv (a b : ℤ) : ℤ :=
  Int.fdiv a b

/-- Integer reading of a JSON number (the timestamps of the device API). -/
def Json.asZ (j : Json) : ℤ :=
  pyInt j.asQ

/-! ## P40ChargingStation state and `_update_state`

The mutable attributes of the wrapper that `_update_state` touches, and the
full assignment sequence of `_update_state` given the fetched data:
`wallboxData` is the `get_wallbox` result feeding `get_wallbox_state`,
`lmgmtConfig` the `get_load_management_config("max_available_current")`
result, `currentSessionData` and `sessionsData` the `_request` results of
the two `get_sessions` fetches.  `maxAvailableCurrent` holds the raw
`lmgmt_config["data"]` value (`Json.null` for the initial Python `None`).
Exceptions (Python `AttributeError` from `.get` on non-dict JSON) propagate
out of `_update_state` as in the source; non-numeric JSON in arithmetic
positions (a device-API type violation, `TypeError` in Python) is read as 0
via `Json.asQ`, a corner no claim depends on.
-/

structure StationState where
  cache : Cache
  maxAvailableCurrent : Json
  currentSession : Option P40SessionInfo
  lastCompletedSession : Option P40SessionInfo

/-- Fresh wrapper state (`P40ChargingStation.__init__`). -/
def StationState.init : StationState :=
  { cache := [], maxAvailableCurrent := .null
    currentSession := none, lastCompletedSession := none }

/-- The `_polling_interval` attribute set in `P40ChargingStation.__init__`. -/
def pollingInterval : ℕ := 5

/-- The per-line cache writes of `_update_state`
(`for i, line in enumerate(state.meter.lines[:3], 1)`). -/
def lineWrites : Cache → ℕ → List Json → Cache
  | c, _, [] => c
  | c, i, line :: rest =>
      let c1 := cset c ("I" ++ toString i)
        (.json (.num ((line.getD "current" (.num 0)).asQ / 1000)))
      let c2 := cset c1 ("U" ++ toString i) (.json (line.getD "voltage" (.num 0)))
      lineWrites c2 (i + 1) rest

/-- Embeds `_update_state` given the fetched data (see the section
comment). Returns the updated wrapper state; an early `return` on a falsy
wallbox leaves everything unchanged. -/
def updateState (prev : StationState) (serial : String)
    (wallboxData : Option Json) (lmgmtConfig : Option Json)
    (currentSessionData : Option Json) (sessionsData : Option Json) :
    Except PyExc StationState := do
  let stateOpt ← getWallboxState wallboxData serial
  match stateOpt with
  | none => return prev
  | some state =>
    -- `if lmgmt_config and "data" in lmgmt_config:`
    let cfg := lmgmtConfig.getD .null
    let mav := if cfg.truthy && cfg.hasKey "data" then cfg.getOpt "data"
      else prev.maxAvailableCurrent
    -- `self._current_session = await self._api.get_current_session(...)`
    let csSessions ← getSessions currentSessionData
    let cs := getCurrentSession csSessions serial
    -- last completed session: first fetched session that is CLOSED with an
    -- end date; the attribute keeps its old value when none matches
    let sessions ← getSessions sessionsData
    let lastCompleted :=
      match sessions.find? (fun s =>
        !s.end_date.isNull && s.status.eqStr "CLOSED") with
      | some s => some s
      | none => prev.lastCompletedSession
    let c := prev.cache
    let c := cset c "State" (.json (.num (mapStateVal state.state : ℤ)))
    let c := cset c "State_details" (.json (.str (mapStateDetailsVal state.state)))
    let c := cset c "Plug"
      (.json (.num (if state.vehicle_plugged.truthy then 7 else 0)))
    let c :=
      match state.meter with
      | some m =>
          let c := cset c "E total" (.json (.num (m.meter_value.asQ / 1000000)))
          let c := cset c "P" (.json (.num (m.total_active_power.asQ / 1000000)))
          let c := cset c "Curr offered"
            (.json (.num (m.current_offered.asQ / 1000)))
          let c := cset c "Curr user"
            (.json (.num (match mav with
              | .null => m.current_offered.asQ / 1000
              | v => v.asQ / 1000)))
          let c := cset c "Curr HW" (.json (.num (state.max_current.asQ / 1000)))
          let c := cset c "PF" (.json (.num (m.total_power_factor.asQ / 1000)))
          let c := cset c "Temperature" (.json (.num (m.temperature.asQ / 100)))
          let c := cset c "Phases Supported" (.json m.phases_supported)
          lineWrites c 1 (m.lines.asList.take 3)
      | none => c
    let c := cset c "Max curr" (.json (.num (state.max_current.asQ / 1000)))
    let c :=
      if state.max_current.asQ > 0 then
        cset c "Max curr %"
          (.json (.num ((cgetNum c "Curr user" / (state.max_current.asQ / 1000)) * 100)))
      else c
    let c := cset c "Output" (.json (.num (if state.x11active.truthy then 1 else 0)))
    let c := cset c "Input" (.json (.num (if state.x12active.truthy then 1 else 0)))
    let c := cset c "X2 phaseSwitch"
      (.json (.num (if state.x2active.truthy then 1 else 0)))
    let c := cset c "Plug_locked" (.json state.permanently_locked)
    let c := cset c "State_on" (.json (.bool (state.state.eqStr "CHARGING")))
    let c := cset c "Plug_EV" (.json state.vehicle_plugged)
    let c := cset c "Plug_charging_station" (.json state.vehicle_plugged)
    let c := cset c "AuthON" (.json state.authorization_enabled)
    let c := cset c "Session Active" (.json state.session_active)
    let c := cset c "Session ID"
      (.json (match cs with | some s => s.id | none => .null))
    let c := cset c "RFID tag"
      (.json (match cs with | some s => s.token_id | none => .null))
    let c := cset c "RFID class" (.json .null)
    let c := cset c "E start"
      (.json (match cs with
        | some s => .num (s.starting_meter_value.asQ / 1000000)
        | none => .null))
    let c := cset c "started"
      (match cs with
        | some s =>
            if s.start_date.truthy then
              .isoUtc (pyFloorDiv s.start_date.asZ 1000)
            else .json .null
        | none => .json .null)
    let c := cset c "ended"
      (match lastCompleted with
        | some s =>
            if s.end_date.truthy then
              .isoUtc (pyFloorDiv s.end_date.asZ 1000)
            else .json .null
        | none => .json .null)
    let c := cset c "reason"
      (.json (match lastCompleted with
        | some s => s.termination_reason
        | none => .null))
    let c := cset c "E pres"
      (.json (match cs with
        | some s => .num (s.energy_consumed.asQ / 1000000)
        | none => .num 0))
    let c := cset c "Authreq"
      (.json (.num (if state.session_active.truthy then 0 else 1)))
    let c := cset c "AuthON" (.json state.authorization_enabled)
    let c := cset c "Raw State" (.json state.state)
    let c := cset c "Phase Used" (.json state.phase_used)
    let c := cset c "Model" (.json state.model)
    let c := cset c "Error Code" (.json state.error_code)
    let c := cset c "Firmware Version" (.json state.firmware_version)
    return { cache := c, maxAvailableCurrent := mav
             currentSession := cs, lastCompletedSession := lastCompleted }

/-! ## Device commands (`p40_charging_station.py`)

Each `set_*` method builds a `configs` list (a list of
`{"key": k, "value": v}` dicts, modelled as key/value pairs) and passes it
to `P40ApiClient.set_load_management_config`, which PUTs
`{"configs": configs}` to `/v2/configs/lmgmt/`; the trailing
`await self._update_state()` refresh is `updateState` above.
-/

/-- The JSON body `set_load_management_config` sends to the device. -/
def setLoadManagementBody (configs : List (String × Json)) : Json :=
  .obj [("configs",
    .arr (configs.map fun kv => .obj [("key", .str kv.1), ("value", kv.2)]))]

/-- Embeds `set_current_max_permanent(current)`: the configs forwarded. -/
def set_current_max_permanent (current : ℚ) : List (String × Json) :=
  let current_ma := pyInt (current * 1000)
  [("max_available_current", .num (current_ma : ℚ))]

/-- Embeds `set_current(current, delay)`: the configs forwarded (the source
never reads `delay`). -/
def set_current (current : ℚ) (_delay : Option ℤ) : List (String × Json) :=
  let current_ma := pyInt (current * 1000)
  [("max_available_current", .num (current_ma : ℚ))]

/-- Embeds `set_failsafe(timeout, fallback_value)`: the configs forwarded
(the source never reads `timeout`). -/
def set_failsafe (_timeout : ℤ) (fallback_value : ℚ) : List (String × Json) :=
  let fallback_ma := pyInt (fallback_value * 1000)
  [("failsafe_current_serial_1", .num (fallback_ma : ℚ))]

/-- Embeds `P40ChargingStation.display(message)`: the body is a bare
`raise NotImplementedError(...)`. -/
def display (_message : String) : Except PyExc Unit :=
  .error .notImplementedError

/-- The methods defined on `P40ApiClient` in `p40_api.py` (the lookup table
Python `getattr` consults on `self._api`). -/
def p40ApiClientMethods : List String :=
  ["__init__", "_ensure_session", "close", "login", "_refresh_access_token",
   "_request", "get_device_info", "get_wallbox", "get_wallbox_state",
   "start_charging", "stop_charging", "get_load_management_config",
   "set_load_management_config", "_parse_session", "get_sessions",
   "get_current_session", "add_callback", "remove_callback", "start_polling",
   "unlock_socket"]

/-- Embeds `P40ChargingStation.set_output(value)`: it builds the configs and
then evaluates `self._api.set_installer_io_config`, an attribute access that
raises `AttributeError` when the method does not exist on the client. -/
def set_output (value : Json) : Except PyExc (List (String × Json)) :=
  let configs := [("inst_x2_mode", value)]
  if p40ApiClientMethods.contains "set_installer_io_config" then .ok configs
  else .error .attributeError

/-! ## Service dispatch (`__init__.py`: `execute_service`)

`execute_service` awaits the station method and converts a raised
`NotImplementedError` into a `ServiceValidationError`; any other exception
propagates out of the service call.
-/

inductive ServiceOutcome where
  | ok : ServiceOutcome
  | validationError : ServiceOutcome
  | uncaught (e : PyExc) : ServiceOutcome
  deriving Repr, DecidableEq

/-- The `try/except NotImplementedError` wrapper of `execute_service`. -/
def wrapService (r : Except PyExc Unit) : ServiceOutcome :=
  match r with
  | .ok _ => .ok
  | .error .notImplementedError => .validationError
  | .error e => .uncaught e

/-- The services registered for a P40 device in `async_setup_entry`. -/
def p40_services : List String :=
  ["start", "stop", "set_current", "set_failsafe", "set_energy",
   "set_charging_power", "set_output", "x2src", "x2"]

/-- The `set_output` service executed through `execute_service` on a P40
station. -/
def executeSetOutputP40 (value : Json) : ServiceOutcome :=
  wrapService ((set_output value).map fun _ => ())

/-- The display operation executed through `execute_service` on a P40
station. -/
def executeDisplayP40 (message : String) : ServiceOutcome :=
  wrapService (display message)

/-! ## Config flow user step (`config_flow.py`: `KebaConfigFlow.async_step_user`)

`userInput` is the submitted form (`none` on first display), `prevDiscovered`
the accumulated `self._discovered_devices`, and `found` the addresses
returned by the discovery calls over all network adapters, in order.
-/

inductive FlowResult where
  | showFormUser (errors : List (String × String)) : FlowResult
  | stepConnect (host : Json) : FlowResult
  | showFormSelect (choices : List String) : FlowResult

/-- The discovery accumulation: each discovered device is appended to
`self._discovered_devices` unless already present. -/
def addDiscovered (prev : List String) (found : List String) : List String :=
  found.foldl (fun acc d => if acc.contains d then acc else acc ++ [d]) prev

/-- Embeds `async_step_user`.  Returns the flow result and the updated
`self._discovered_devices`. -/
def async_step_user (userInput : Option Json) (prevDiscovered : List String)
    (found : List String) : FlowResult × List String :=
  match userInput with
  | none => (.showFormUser [], prevDiscovered)
  | some ui =>
      let host := ui.getOpt "host"
      if host.truthy then (.stepConnect host, prevDiscovered)
      else
        let devices := addDiscovered prevDiscovered found
        match devices with
        | [d] => (.stepConnect (.str d), devices)
        | _ :: _ :: _ => (.showFormSelect devices, devices)
        | [] => (.showFormUser [("base", "no_device_found")], devices)

/-! ## Polling loop (`p40_charging_station.py`: `initialize`, `_poll_updates`)

`initialize` fetches the device info, runs `_update_state` once, and starts
`_poll_updates` as a task.  The loop body is
`while True: try: sleep(interval); _update_state()` with `CancelledError`
breaking out and every other exception logged and swallowed.  An iteration
is summarised by one event: the update succeeded, the update raised, or the
task was cancelled during the sleep or during the update.  `pollTrace` is
the sequence of awaited actions, `pollExits` whether the loop has exited
after the given events.
-/

inductive StartupAction where
  | fetchDeviceInfo : StartupAction
  | fetchState : StartupAction
  | startPollingTask : StartupAction
  deriving Repr, DecidableEq

/-- The actions of `P40ChargingStation.initialize`, in order. -/
def stationStartupActions : List StartupAction :=
  [.fetchDeviceInfo, .fetchState, .startPollingTask]

inductive PollEvent where
  | updateOk : PollEvent
  | updateErr : PollEvent
  | cancelDuringSleep : PollEvent
  | cancelDuringUpdate : PollEvent
  deriving Repr, DecidableEq

/-- Whether the event is a task cancellation (`asyncio.CancelledError`). -/
def PollEvent.isCancel : PollEvent → Bool
  | .cancelDuringSleep => true
  | .cancelDuringUpdate => true
  | _ => false

inductive PollAction where
  | sleepFor (seconds : ℕ) : PollAction
  | fetchState : PollAction
  deriving Repr, DecidableEq

/-- Whether `_poll_updates` has exited (`break`) after the given iteration
events: only a cancellation breaks the `while True` loop. -/
def pollExits : List PollEvent → Bool
  | [] => false
  | e :: rest => if e.isCancel then true else pollExits rest

/-- The awaited actions of `_poll_updates` over the given iteration events:
each full iteration sleeps `_polling_interval` seconds and then runs
`_update_state`; a cancellation during the sleep ends the loop mid-sleep
and a cancellation during the update ends it after the sleep. -/
def pollTrace : List PollEvent → List PollAction
  | [] => []
  | .updateOk :: rest => .sleepFor pollingInterval :: .fetchState :: pollTrace rest
  | .updateErr :: rest => .sleepFor pollingInterval :: .fetchState :: pollTrace rest
  | .cancelDuringSleep :: _ => []
  | .cancelDuringUpdate :: _ => [.sleepFor pollingInterval]

/-- A concrete parsed wallbox state: the result of `get_wallbox_state` on
the payload `{"state": "CHARGING"}` (all other fields at their parse
defaults), used to evaluate `_update_state` on a concrete input. -/
def chargingWallboxState : P40WallboxState :=
  { number := .num 1, serial_number := .str "S1", state := .str "CHARGING",
    vehicle_plugged := .bool false, authorization_enabled := .bool false,
    session_active := .bool false, meter := none, max_phases := .num 3,
    max_current := .num 0, phase_used := .str "", ip_address := .str "",
    model := .str "", firmware_version := .null, error_code := .null,
    alias_ := .null, x2active := .bool false, x11active := .bool false,
    x12active := .bool false, permanently_locked := .bool false }

/-! ## Helper lemmas -/

theorem exceptBindOk {α β ε : Type} (a : α) (f : α → Except ε β) :
    (Except.ok a >>= f : Except ε β) = f a := rfl

theorem exceptBindErr {α β ε : Type} (e : ε) (f : α → Except ε β) :
    (Except.error e >>= f : Except ε β) = .error e := rfl

theorem keyI1 : ("I" ++ toString (1 : ℕ)) = "I1" := rfl

theorem keyI2 : ("I" ++ toString (2 : ℕ)) = "I2" := rfl

theorem keyI3 : ("I" ++ toString (3 : ℕ)) = "I3" := rfl

theorem keyU1 : ("U" ++ toString (1 : ℕ)) = "U1" := rfl

theorem keyU2 : ("U" ++ toString (2 : ℕ)) = "U2" := rfl

theorem keyU3 : ("U" ++ toString (3 : ℕ)) = "U3" := rfl

theorem parseSession_obj (fields : List (String × Json)) :
    ∃ s, parseSession (.obj fields) = .ok s := ⟨_, rfl⟩

theorem parseSession_nonObj (e : Json) (h : e.isObj = false) :
    parseSession e = .error .attributeError := by
  cases e <;> simp [Json.isObj] at h <;> rfl

theorem mapM_parseSession_allObj (elems : List Json)
    (h : ∀ e ∈ elems, e.isObj = true) :
    ∃ l, elems.mapM parseSession = .ok l ∧ l.length = elems.length := by
  induction elems with
  | nil => exact ⟨[], rfl, rfl⟩
  | cons a as ih =>
      obtain ⟨l, hl, hlen⟩ := ih fun e he => h e (List.mem_cons_of_mem _ he)
      have ha := h a (List.mem_cons_self a as)
      rcases a with _ | bb | q | s | es | fields <;> simp [Json.isObj] at ha
      obtain ⟨s, hs⟩ := parseSession_obj fields
      refine ⟨s :: l, ?_, by simp [hlen]⟩
      rw [List.mapM_cons, hs, hl]
      rfl

theorem mapM_parseSession_nonObj (elems : List Json)
    (h : ∃ e ∈ elems, e.isObj = false) :
    elems.mapM parseSession = .error .attributeError := by
  induction elems with
  | nil => simp at h
  | cons a as ih =>
      by_cases ha : a.isObj = false
      · rw [List.mapM_cons, parseSession_nonObj a ha]
        rfl
      · rcases h with ⟨e, he, hobj⟩
        rcases List.mem_cons.mp he with rfl | hmem
        · exact absurd hobj ha
        · have hrec := ih ⟨e, hmem, hobj⟩
          rcases a with _ | bb | q | s | es | fields <;>
            simp [Json.isObj] at ha
          obtain ⟨s, hs⟩ := parseSession_obj fields
          rw [List.mapM_cons, hs, hrec]
          rfl

theorem requestAux_zero_eq (st : ClientState) (script : List HttpResult) :
    requestAux 0 st script =
      if st.accessToken.truthy then
        match takeResp script with
        | (.resp s body, rest2) =>
            if s = 200 ∨ s = 201 then .ok ⟨some body, st, rest2, 1, 0⟩
            else .ok ⟨none, st, rest2, 1, 0⟩
        | (.netErr, rest2) => .ok ⟨none, st, rest2, 1, 0⟩
      else .ok ⟨none, st, script, 0, 0⟩ := by
  unfold requestAux
  rcases htr : takeResp script with ⟨r, rest2⟩
  by_cases ha : st.accessToken.truthy
  · simp only [ha, not_true_eq_false, if_false, if_true, htr]
    cases r with
    | resp s body =>
        by_cases hs : s = 200 ∨ s = 201
        · simp [hs]
        · by_cases h401 : s = 401 <;> simp [hs, h401]
    | netErr => rfl
  · simp [ha]

theorem requestAux_zero_spec (st : ClientState) (script : List HttpResult)
    (out : ReqOut) (h : requestAux 0 st script = .ok out) :
    out.refreshCount = 0 ∧ out.wireCount ≤ 1 := by
  rw [requestAux_zero_eq] at h
  repeat' split at h
  all_goals injection h with h2
  all_goals subst h2
  all_goals exact ⟨rfl, by norm_num⟩

/-! ## Claims -/

/-- C1: for every authenticated `_request` whose first response is 401 with
the default retry flag, exactly one token refresh is attempted; when the
refresh returns success, the request is retried exactly once with the retry
flag cleared (the result is the no-retry run on the refreshed state, with
one extra wire request and no inner refresh); when the refresh returns
failure, or the retried request gets 401 again, the call returns `None`
with no further refresh or retry. -/
theorem c1_request_single_retry_on_401 (st : ClientState) (b : Json)
    (rest : List HttpResult) (hauth : st.accessToken.truthy = true) :
    (∀ st1 rest1, refreshAccessToken st rest = .ok (true, st1, rest1) →
      request st (.resp 401 b :: rest) true =
        (requestAux 0 st1 rest1).map
          (fun out => ⟨out.result, out.state, out.script,
            out.wireCount + 1, out.refreshCount + 1⟩) ∧
      ∀ out, requestAux 0 st1 rest1 = .ok out →
        out.refreshCount = 0 ∧ out.wireCount ≤ 1) ∧
    (∀ st1 rest1, refreshAccessToken st rest = .ok (false, st1, rest1) →
      request st (.resp 401 b :: rest) true = .ok ⟨none, st1, rest1, 1, 1⟩) ∧
    (∀ st1 b2 rest2,
      refreshAccessToken st rest = .ok (true, st1, .resp 401 b2 :: rest2) →
      st1.accessToken.truthy = true →
      request st (.resp 401 b :: rest) true = .ok ⟨none, st1, rest2, 2, 1⟩) ∧
    (∀ out, request st (.resp 401 b :: rest) true = .ok out →
      out.refreshCount = 1) := by
  have hstep : request st (.resp 401 b :: rest) true =
      match refreshAccessToken st rest with
      | .ok (true, st1, rest1) =>
          match requestAux 0 st1 rest1 with
          | .ok out => .ok ⟨out.result, out.state, out.script,
              out.wireCount + 1, out.refreshCount + 1⟩
          | .error e => .error e
      | .ok (false, st1, rest1) => .ok ⟨none, st1, rest1, 1, 1⟩
      | .error e => .error e := by
    show requestAux 1 st (.resp 401 b :: rest) = _
    rw [requestAux.eq_def]
    simp only [hauth, not_true_eq_false, if_false, takeResp]
    norm_num
  refine ⟨fun st1 rest1 href => ⟨?_, fun out => requestAux_zero_spec st1 rest1 out⟩,
    fun st1 rest1 href => ?_, fun st1 b2 rest2 href hauth1 => ?_, fun out hout => ?_⟩
  · rw [hstep, href]
    cases hin : requestAux 0 st1 rest1 <;> simp [hin, Except.map]
  · rw [hstep, href]
  · rw [hstep, href]
    simp [requestAux_zero_eq, hauth1, takeResp]
  · rw [hstep] at hout
    cases href : refreshAccessToken st rest with
    | ok v =>
        obtain ⟨ok1, st1, rest1⟩ := v
        cases ok1
        · rw [href] at hout
          injection hout with h2
          subst h2
          rfl
        · rw [href] at hout
          dsimp only at hout
          cases hin : requestAux 0 st1 rest1 with
          | ok out2 =>
              rw [hin] at hout
              injection hout with h2
              subst h2
              have h0 := (requestAux_zero_spec st1 rest1 out2 hin).1
              simp [h0]
          | error e => rw [hin] at hout; simp at hout
    | error e => rw [href] at hout; simp at hout

/-- C1 witness: a concrete 401-refresh-retry run. -/
theorem c1_witness :
    request { accessToken := .str "tok", refreshToken := .str "ref",
              username := .null, password := .null }
        [.resp 401 .null, .resp 200 (.obj [("accessToken", .str "tok2")]),
         .resp 200 (.obj [("v", .num 1)])] true =
      .ok ⟨some (.obj [("v", .num 1)]),
        { accessToken := .str "tok2", refreshToken := .str "ref",
          username := .null, password := .null }, [], 2, 1⟩ := by
  have h := ((c1_request_single_retry_on_401
    { accessToken := .str "tok", refreshToken := .str "ref",
      username := .null, password := .null } .null
    [.resp 200 (.obj [("accessToken", .str "tok2")]), .resp 200 (.obj [("v", .num 1)])]
    rfl).1
    { accessToken := .str "tok2", refreshToken := .str "ref",
      username := .null, password := .null }
    [.resp 200 (.obj [("v", .num 1)])] rfl).1
  rw [h]
  rfl

/-- C2 counterexample: `set_failsafe` sends the same single-key device
payload for two different timeouts, so the timeout is not forwarded; the
only config key sent is `failsafe_current_serial_1`. -/
theorem c2_counterexample :
    set_failsafe 30 6 = set_failsafe 99999 6 ∧
    (set_failsafe 30 6).map Prod.fst = ["failsafe_current_serial_1"] ∧
    setLoadManagementBody (set_failsafe 30 6) =
      setLoadManagementBody (set_failsafe 99999 6) := by
  exact ⟨rfl, rfl, rfl⟩

/-- C2 (amended): `set_failsafe(timeout, fallback_value)` forwards only the
fallback current, converted to integer milliamperes, under the
`failsafe_current_serial_1` load-management key; the timeout parameter has
no effect on the request sent. -/
theorem c2_set_failsafe_fallback_only (timeout timeout2 : ℤ) (fallback : ℚ) :
    set_failsafe timeout fallback =
      [("failsafe_current_serial_1", .num ((pyInt (fallback * 1000) : ℤ) : ℚ))] ∧
    set_failsafe timeout fallback = set_failsafe timeout2 fallback := ⟨rfl, rfl⟩

/-- C3 counterexample: on a P40 station the display operation fails with
`NotImplementedError` at the concrete message `"hello"` (surfaced by
`execute_service` as a `ServiceValidationError`), forwarding nothing. -/
theorem c3_counterexample :
    display "hello" = .error .notImplementedError ∧
    executeDisplayP40 "hello" = .validationError := ⟨rfl, rfl⟩

/-- C3 (amended): for every message, `P40ChargingStation.display` raises
`NotImplementedError` rather than forwarding the text to the device, and
`execute_service` turns that into a `ServiceValidationError`. -/
theorem c3_display_p40_raises (message : String) :
    display message = .error .notImplementedError ∧
    executeDisplayP40 message = .validationError := ⟨rfl, rfl⟩

/-- C4: the polling interval set up by `__init__`/`initialize` is 5 seconds,
`initialize` starts the polling task, the loop exits exactly when some
iteration is cancelled, and every non-cancelled iteration first sleeps the
polling interval and then re-fetches the state, with an update error
continuing to the next iteration. -/
theorem c4_poll_loop (evs rest : List PollEvent) (e : PollEvent) :
    pollingInterval = 5 ∧
    stationStartupActions.contains .startPollingTask = true ∧
    (pollExits evs = true ↔ evs.any PollEvent.isCancel = true) ∧
    (e.isCancel = false →
      pollTrace (e :: rest) =
        .sleepFor pollingInterval :: .fetchState :: pollTrace rest ∧
      pollExits (e :: rest) = pollExits rest) := by
  refine ⟨rfl, by decide, ?_, fun h => ?_⟩
  · induction evs with
    | nil => simp [pollExits]
    | cons e2 rest2 ih =>
        cases he : e2.isCancel <;> simp [pollExits, he, ih]
  · cases e <;> simp_all [pollTrace, pollExits, PollEvent.isCancel]

/-- C4 witness: a concrete loop run that survives an update error and one
that exits on cancellation. -/
theorem c4_witness :
    pollExits [PollEvent.updateErr, PollEvent.cancelDuringSleep] = true ∧
    pollTrace [PollEvent.updateErr, PollEvent.updateOk] =
      [.sleepFor 5, .fetchState, .sleepFor 5, .fetchState] := by
  constructor
  · exact (c4_poll_loop [PollEvent.updateErr, PollEvent.cancelDuringSleep]
      [] PollEvent.updateOk).2.2.1.mpr (by decide)
  · have h := (c4_poll_loop [] [PollEvent.updateOk] PollEvent.updateErr).2.2.2 rfl
    rw [h.1]; rfl

/-- C5: `_map_state` maps IDLE to 0, READY_FOR_CHARGING to 1, CHARGING to 3,
SUSPENDED to 4, RECOVER_FROM_ERROR to 5, UNAVAILABLE and OFFLINE to 254 and
every other string to 0; `_map_state_details` maps every string outside its
table to "unknown"; and `_update_state` writes both mapped values into the
cache under the keys `State` and `State_details`. -/
theorem c5_state_mapping_total (s1 s2 : String) (prev : StationState)
    (serial : String) (wd lmgmt csd sd : Option Json)
    (state : P40WallboxState) (st2 : StationState) :
    map_state "IDLE" = 0 ∧ map_state "READY_FOR_CHARGING" = 1 ∧
    map_state "CHARGING" = 3 ∧ map_state "SUSPENDED" = 4 ∧
    map_state "RECOVER_FROM_ERROR" = 5 ∧ map_state "UNAVAILABLE" = 254 ∧
    map_state "OFFLINE" = 254 ∧
    (s1 ∉ ["IDLE", "READY_FOR_CHARGING", "CHARGING", "SUSPENDED",
        "RECOVER_FROM_ERROR", "UNAVAILABLE", "OFFLINE"] → map_state s1 = 0) ∧
    (s2 ∉ state_details.map Prod.fst → map_state_details s2 = "unknown") ∧
    (getWallboxState wd serial = .ok (some state) →
      updateState prev serial wd lmgmt csd sd = .ok st2 →
      cget st2.cache "State" = some (.json (.num (mapStateVal state.state : ℤ))) ∧
      cget st2.cache "State_details" =
        some (.json (.str (mapStateDetailsVal state.state)))) := by
  refine ⟨rfl, rfl, rfl, rfl, rfl, rfl, rfl, ?_, ?_, fun hw h2 => ?_⟩
  · intro hs
    simp only [List.mem_cons, List.not_mem_nil, or_false, not_or] at hs
    obtain ⟨h1, h2, h3, h4, h5, h6, h7⟩ := hs
    simp [map_state, state_mapping, List.lookup,
      beq_eq_false_iff_ne.mpr h1, beq_eq_false_iff_ne.mpr h2,
      beq_eq_false_iff_ne.mpr h3, beq_eq_false_iff_ne.mpr h4,
      beq_eq_false_iff_ne.mpr h5, beq_eq_false_iff_ne.mpr h6,
      beq_eq_false_iff_ne.mpr h7]
  · intro hs
    simp only [state_details, List.map, List.mem_cons, List.not_mem_nil,
      or_false, not_or] at hs
    obtain ⟨h1, h2, h3, h4, h5, h6, h7, h8, h9, h10, h11⟩ := hs
    simp [map_state_details, state_details, List.lookup,
      beq_eq_false_iff_ne.mpr h1, beq_eq_false_iff_ne.mpr h2,
      beq_eq_false_iff_ne.mpr h3, beq_eq_false_iff_ne.mpr h4,
      beq_eq_false_iff_ne.mpr h5, beq_eq_false_iff_ne.mpr h6,
      beq_eq_false_iff_ne.mpr h7, beq_eq_false_iff_ne.mpr h8,
      beq_eq_false_iff_ne.mpr h9, beq_eq_false_iff_ne.mpr h10,
      beq_eq_false_iff_ne.mpr h11]
  · unfold updateState at h2
    rw [hw, exceptBindOk] at h2
    cases hcs : getSessions csd with
    | error e => rw [hcs] at h2; simp [exceptBindErr] at h2
    | ok csl =>
      cases hsess : getSessions sd with
      | error e => rw [hcs, hsess] at h2; simp [exceptBindOk, exceptBindErr] at h2
      | ok sl =>
        rw [hcs, hsess] at h2
        simp only [exceptBindOk] at h2
        simp only [pure, Except.pure, Except.ok.injEq] at h2
        subst h2
        constructor
        · show List.lookup "State" _ = _
          rcases hm : state.meter with _ | m
          · simp [cset, List.lookup]
            split <;> simp [List.lookup]
          · rcases hl : m.lines.asList with _ | ⟨a, _ | ⟨b, _ | ⟨c3, rest⟩⟩⟩ <;>
              simp [cset, List.lookup, lineWrites, hl, List.take,
                keyI1, keyI2, keyI3, keyU1, keyU2, keyU3] <;>
              split <;> simp [List.lookup]
        · show List.lookup "State_details" _ = _
          rcases hm : state.meter with _ | m
          · simp [cset, List.lookup]
            split <;> simp [List.lookup]
          · rcases hl : m.lines.asList with _ | ⟨a, _ | ⟨b, _ | ⟨c3, rest⟩⟩⟩ <;>
              simp [cset, List.lookup, lineWrites, hl, List.take,
                keyI1, keyI2, keyI3, keyU1, keyU2, keyU3] <;>
              split <;> simp [List.lookup]

/-- C5 witness: the mapping defaults at a string outside both tables, and a
concrete `_update_state` run writing `State` and `State_details`. -/
theorem c5_witness :
    map_state "SOMETHING_ELSE" = 0 ∧
    map_state_details "SOMETHING_ELSE" = "unknown" ∧
    (match updateState StationState.init "S1"
        (some (.obj [("state", .str "CHARGING")])) none none none with
      | .ok st2 => cget st2.cache "State"
      | .error _ => none) = some (.json (.num ((3 : ℤ) : ℚ))) ∧
    (match updateState StationState.init "S1"
        (some (.obj [("state", .str "CHARGING")])) none none none with
      | .ok st2 => cget st2.cache "State_details"
      | .error _ => none) = some (.json (.str "charging")) := by
  have hws : getWallboxState (some (.obj [("state", .str "CHARGING")])) "S1" =
      .ok (some chargingWallboxState) := rfl
  obtain ⟨st2, h2⟩ : ∃ s2,
      updateState StationState.init "S1"
        (some (.obj [("state", .str "CHARGING")])) none none none =
        .ok s2 := ⟨_, rfl⟩
  have h := c5_state_mapping_total "SOMETHING_ELSE" "SOMETHING_ELSE"
    StationState.init "S1" (some (.obj [("state", .str "CHARGING")]))
    none none none chargingWallboxState st2
  refine ⟨h.2.2.2.2.2.2.2.1 (by decide), h.2.2.2.2.2.2.2.2.1 (by decide), ?_, ?_⟩
  · rw [h2]
    exact (h.2.2.2.2.2.2.2.2.2 hws h2).1.trans (by rfl)
  · rw [h2]
    exact (h.2.2.2.2.2.2.2.2.2 hws h2).2.trans (by rfl)

/-- C6 counterexample: a login response with status 200 whose body is a JSON
array makes `login` raise `AttributeError` instead of returning `True`. -/
theorem c6_counterexample :
    login ClientState.init "admin" "secret" [.resp 200 (.arr [.num 1])] =
      .error .attributeError := rfl

/-- C6 (amended): `login` returns `True` iff the response status is 200 and
the body is a JSON object, in which case the `accessToken`/`refreshToken`
values of the body are stored; on any other status or a timeout/client
error it returns `False` with the previously stored tokens unchanged; on a
200 response with a non-object body it raises `AttributeError`; the
supplied username and password are stored whenever the call returns. -/
theorem c6_login_spec (st : ClientState) (u p : String) (script : List HttpResult)
    (r : HttpResult) (rest : List HttpResult) (hr : takeResp script = (r, rest)) :
    (∀ body, r = .resp 200 body → body.isObj = true →
      login st u p script = .ok (true,
        { accessToken := body.getOpt "accessToken"
          refreshToken := body.getOpt "refreshToken"
          username := .str u, password := .str p }, rest)) ∧
    (∀ body, r = .resp 200 body → body.isObj = false →
      login st u p script = .error .attributeError) ∧
    (∀ status body, r = .resp status body → status ≠ 200 →
      login st u p script = .ok (false,
        { st with username := .str u, password := .str p }, rest)) ∧
    (r = .netErr →
      login st u p script = .ok (false,
        { st with username := .str u, password := .str p }, rest)) := by
  unfold login
  rw [hr]
  refine ⟨?_, ?_, ?_, ?_⟩
  · rintro body rfl hobj
    rcases body with _ | bb | q | s | elems | fields <;> simp [Json.isObj] at hobj
    simp [pyGetOpt]
  · rintro body rfl hobj
    rcases body with _ | bb | q | s | elems | fields <;> simp [Json.isObj] at hobj <;>
      simp [pyGetOpt]
  · rintro status body rfl hne
    simp [hne]
  · rintro rfl
    simp

/-- C6 witness: concrete 200-object, 403 and network-error logins. -/
theorem c6_witness :
    login ClientState.init "admin" "secret"
        [.resp 200 (.obj [("accessToken", .str "at1"), ("refreshToken", .str "rt1")])] =
      .ok (true,
        { accessToken := .str "at1", refreshToken := .str "rt1"
          username := .str "admin", password := .str "secret" }, []) ∧
    login ClientState.init "admin" "secret" [.resp 403 .null] =
      .ok (false,
        { ClientState.init with username := .str "admin", password := .str "secret" },
        []) ∧
    login ClientState.init "admin" "secret" [.netErr] =
      .ok (false,
        { ClientState.init with username := .str "admin", password := .str "secret" },
        []) := by
  refine ⟨?_, ?_, ?_⟩
  · exact ((c6_login_spec ClientState.init "admin" "secret"
      [.resp 200 (.obj [("accessToken", .str "at1"), ("refreshToken", .str "rt1")])]
      _ [] rfl).1 _ rfl rfl).trans rfl
  · exact ((c6_login_spec ClientState.init "admin" "secret" [.resp 403 .null]
      _ [] rfl).2.2.1 403 .null rfl (by decide))
  · exact ((c6_login_spec ClientState.init "admin" "secret" [.netErr]
      _ [] rfl).2.2.2 rfl)

/-- C7: in the config-flow user step, a supplied (truthy) host is used
directly for connecting; with no host, discovery runs and exactly one
discovered device becomes the host automatically, more than one leads to a
selection step, and none reports the error `no_device_found`. -/
theorem c7_user_step (ui : Json) (prev found : List String) :
    (async_step_user none prev found = (.showFormUser [], prev)) ∧
    ((ui.getOpt "host").truthy = true →
      async_step_user (some ui) prev found = (.stepConnect (ui.getOpt "host"), prev)) ∧
    ((ui.getOpt "host").truthy = false →
      (∀ d, addDiscovered prev found = [d] →
        async_step_user (some ui) prev found = (.stepConnect (.str d), [d])) ∧
      (∀ d1 d2 ds, addDiscovered prev found = d1 :: d2 :: ds →
        async_step_user (some ui) prev found =
          (.showFormSelect (d1 :: d2 :: ds), d1 :: d2 :: ds)) ∧
      (addDiscovered prev found = [] →
        async_step_user (some ui) prev found =
          (.showFormUser [("base", "no_device_found")], []))) := by
  refine ⟨rfl, fun h => ?_,
    fun h => ⟨fun d hd => ?_, fun d1 d2 ds hds => ?_, fun hnil => ?_⟩⟩
  · simp [async_step_user, h]
  · simp [async_step_user, h, hd]
  · simp [async_step_user, h, hds]
  · simp [async_step_user, h, hnil]

/-- C7 witness: concrete manual-host, single-device, multi-device and
no-device runs of the user step. -/
theorem c7_witness :
    async_step_user (some (.obj [("host", .str "10.0.0.5")])) [] [] =
      (.stepConnect (.str "10.0.0.5"), []) ∧
    async_step_user (some (.obj [])) [] ["a"] = (.stepConnect (.str "a"), ["a"]) ∧
    async_step_user (some (.obj [])) [] ["a", "b"] =
      (.showFormSelect ["a", "b"], ["a", "b"]) ∧
    async_step_user (some (.obj [])) [] [] =
      (.showFormUser [("base", "no_device_found")], []) := by
  refine ⟨(c7_user_step (.obj [("host", .str "10.0.0.5")]) [] []).2.1 rfl, ?_, ?_, ?_⟩
  · exact ((c7_user_step (.obj []) [] ["a"]).2.2 rfl).1 "a" rfl
  · exact ((c7_user_step (.obj []) [] ["a", "b"]).2.2 rfl).2.1 "a" "b" [] rfl
  · exact ((c7_user_step (.obj []) [] []).2.2 rfl).2.2 rfl

/-- C8 counterexample: a sessions payload whose `sessions` list holds a
non-object element makes `get_sessions` raise `AttributeError` instead of
returning a list. -/
theorem c8_counterexample :
    getSessions (some (.obj [("sessions", .arr [.num 5])])) =
      .error .attributeError := rfl

/-- C8 (amended): `get_sessions` returns the empty list when the request
failed, the payload is falsy, or the selected sessions value is not a list;
when it is a list it returns one parsed `P40SessionInfo` per element
provided every element is a JSON object, and raises `AttributeError` when
some element is not an object. -/
theorem c8_get_sessions_spec (d : Json) (elems : List Json) :
    (getSessions none = Except.ok ([] : List P40SessionInfo)) ∧
    (d.truthy = false → getSessions (some d) = .ok []) ∧
    (d.truthy = true →
      (if d.isObj then d.getD "sessions" (.arr []) else d).isArr = false →
      getSessions (some d) = .ok []) ∧
    (d.truthy = true →
      (if d.isObj then d.getD "sessions" (.arr []) else d) = .arr elems →
      ((∀ e ∈ elems, e.isObj = true) →
        ∃ l, getSessions (some d) = .ok l ∧ l.length = elems.length) ∧
      ((∃ e ∈ elems, e.isObj = false) →
        getSessions (some d) = .error .attributeError)) := by
  refine ⟨rfl, fun hf => ?_, fun ht harr => ?_,
    fun ht harr => ⟨fun hall => ?_, fun hsome => ?_⟩⟩
  · simp [getSessions, hf]
  · unfold getSessions
    simp only [ht, not_true_eq_false, if_false]
    rcases hsl : (if d.isObj then d.getD "sessions" (.arr []) else d) with
      _ | bb | q | s | es | fields
    · rfl
    · rfl
    · rfl
    · rfl
    · rw [hsl] at harr; simp [Json.isArr] at harr
    · rfl
  · obtain ⟨l, hl, hlen⟩ := mapM_parseSession_allObj elems hall
    refine ⟨l, ?_, hlen⟩
    unfold getSessions
    simp only [ht, not_true_eq_false, if_false]
    rw [harr]
    exact hl
  · unfold getSessions
    simp only [ht, not_true_eq_false, if_false]
    rw [harr]
    exact mapM_parseSession_nonObj elems hsome

/-- C8 witness: a concrete two-object payload parsed into two sessions, and
two falsy payloads yielding the empty list. -/
theorem c8_witness :
    (match getSessions
        (some (.obj [("sessions", .arr [.obj [("id", .num 7)], .obj []])])) with
      | .ok l => some l.length
      | .error _ => none) = some 2 ∧
    getSessions (some (.num 0)) = .ok [] ∧
    getSessions (some (.str "x")) = .ok [] := by
  refine ⟨?_, ?_, ?_⟩
  · obtain ⟨l, hl, hlen⟩ :=
      ((c8_get_sessions_spec (.obj [("sessions", .arr [.obj [("id", .num 7)], .obj []])])
        [.obj [("id", .num 7)], .obj []]).2.2.2 rfl rfl).1 (by decide)
    rw [hl]
    simpa using hlen
  · exact (c8_get_sessions_spec (.num 0) []).2.1 (by decide)
  · exact (c8_get_sessions_spec (.str "x") []).2.2.1 rfl rfl

/-- C9: `set_current` and `set_current_max_permanent` forward identical
configs for every current value: amperes converted to integer milliamperes
under the single load-management key `max_available_current`, and the delay
parameter of `set_current` has no effect on the request sent. -/
theorem c9_set_current_equiv (current : ℚ) (delay delay2 : Option ℤ) :
    set_current current delay = set_current_max_permanent current ∧
    set_current current delay = set_current current delay2 ∧
    set_current current delay =
      [("max_available_current", .num ((pyInt (current * 1000) : ℤ) : ℚ))] :=
  ⟨rfl, rfl, rfl⟩

/-- C10: `set_installer_io_config` is not among the methods of
`P40ApiClient`, so `set_output` raises `AttributeError` for every input
before sending anything; the registered P40 `set_output` service therefore
never succeeds (the `AttributeError` is not the caught
`NotImplementedError` and propagates). -/
theorem c10_set_output_always_raises (value : Json) :
    p40ApiClientMethods.contains "set_installer_io_config" = false ∧
    set_output value = .error .attributeError ∧
    executeSetOutputP40 value = .uncaught .attributeError ∧
    p40_services.contains "set_output" = true :=
  ⟨by decide, rfl, rfl, by decide⟩

end Keba
